import Mathlib

/-!
# pluma-document-loader.c

A shallow embedding of the abstract document loader of pluma
(`pluma/pluma-document-loader.c`) and the properties of its public
functions.

The loader is one GObject instance; its fields are those the C file reads
and writes. A `PlumaDocumentLoader *` argument is an
`Option PlumaDocumentLoader`: `none` is a pointer on which the
`PLUMA_IS_DOCUMENT_LOADER` check fails (NULL, or an instance of another
type). Every function returns, next to its result, the list of observable
events it produced, in order: debug output, failed `g_return_if_fail`
checks, dispatches through the class's virtual table and emissions of the
`loading` signal. `g_return_if_fail` is modelled with checks enabled
(GLib's default; `G_DISABLE_CHECKS` is not defined by the file).
-/

namespace Pluma

/-! ## Data model -/

/-- A `PlumaDocument` instance, identified by its address. -/
structure PlumaDocument where
  addr : Nat
deriving DecidableEq, Repr

/-- What a non-null `const PlumaEncoding *` points to: an entry of the
encodings table, identified by its index. -/
structure PlumaEncoding where
  index : Nat
deriving DecidableEq, Repr

/-- A `GFileInfo` instance, identified by its address. -/
structure GFileInfo where
  addr : Nat
deriving DecidableEq, Repr

/-- A `GError`: domain, code and message. -/
structure GError where
  domain : Nat
  code : Int
  message : String
deriving DecidableEq, Repr

/-- The enumeration `PlumaDocumentNewlineType`, in declaration order
(`PLUMA_DOCUMENT_NEWLINE_TYPE_LF` is the value 0). -/
inductive PlumaDocumentNewlineType where
  | PLUMA_DOCUMENT_NEWLINE_TYPE_LF
  | PLUMA_DOCUMENT_NEWLINE_TYPE_CR
  | PLUMA_DOCUMENT_NEWLINE_TYPE_CR_LF
deriving DecidableEq, Repr

/-- The registered types the file names. -/
inductive GType where
  | G_TYPE_OBJECT
  | PLUMA_TYPE_DOCUMENT
  | PLUMA_TYPE_ENCODING
  | PLUMA_TYPE_DOCUMENT_NEWLINE_TYPE
  | PLUMA_TYPE_DOCUMENT_LOADER
  | PLUMA_TYPE_GIO_DOCUMENT_LOADER
deriving DecidableEq, Repr

/-- What the file takes from its headers and from the encoding module:
the macro `PLUMA_DOCUMENT_NEWLINE_TYPE_DEFAULT` (pluma-document.h, one of
the three newline types, chosen per platform) and the pointer that
`pluma_encoding_get_current ()` returns. -/
structure Env where
  PLUMA_DOCUMENT_NEWLINE_TYPE_DEFAULT : PlumaDocumentNewlineType
  pluma_encoding_get_current : Option PlumaEncoding
deriving DecidableEq, Repr

/-- The instance structure `PlumaDocumentLoader`: the GObject header (the
type the instance was created with and its reference count) followed by the
fields of the loader. Pointers are options, `none` being NULL. -/
structure PlumaDocumentLoader where
  g_type : GType
  ref_count : Nat
  document : Option PlumaDocument
  used : Bool
  info : Option GFileInfo
  uri : Option String
  encoding : Option PlumaEncoding
  auto_detected_encoding : Option PlumaEncoding
  auto_detected_newline_type : PlumaDocumentNewlineType
deriving DecidableEq, Repr

/-- The virtual table `PlumaDocumentLoaderClass`: what the variant's `load`,
`cancel` and `get_bytes_read` do to the loader and return. -/
structure PlumaDocumentLoaderClass where
  load : PlumaDocumentLoader → PlumaDocumentLoader
  cancel : PlumaDocumentLoader → Bool × PlumaDocumentLoader
  get_bytes_read : PlumaDocumentLoader → Int

/-- The handlers run by one emission of the `loading` signal (the connected
handlers and the class closure): what they do to the loader, given the
`completed` flag and the error of the emission. -/
abbrev Handlers := Bool → Option GError → PlumaDocumentLoader → PlumaDocumentLoader

/-- A value passed to or read from a property (`GValue`). -/
inductive GValue where
  | object (o : Option PlumaDocument)
  | string (s : Option String)
  | boxed (e : Option PlumaEncoding)
  | enum (t : PlumaDocumentNewlineType)
deriving DecidableEq, Repr

/-- The observable events of the file's functions. -/
inductive Event where
  /-- `pluma_debug (DEBUG_LOADER)` -/
  | debug
  /-- `pluma_debug_message (DEBUG_LOADER, msg)` -/
  | debug_message (msg : String)
  /-- A failed `g_return_if_fail` or `g_return_val_if_fail`, with the text
  of the failed check -/
  | critical (check : String)
  /-- `G_OBJECT_WARN_INVALID_PROPERTY_ID` -/
  | warn_invalid_property_id (prop_id : Nat)
  /-- A call of the class's `load` -/
  | virtual_load
  /-- A call of the class's `cancel` -/
  | virtual_cancel
  /-- A call of the class's `get_bytes_read` -/
  | virtual_get_bytes_read
  /-- An emission of the `loading` signal, `ref_count` being the loader's
  reference count at which the handlers are run -/
  | signal_loading (completed : Bool) (error : Option GError) (ref_count : Nat)
deriving DecidableEq, Repr

/-! ## Properties -/

def PROP_0 : Nat := 0
def PROP_DOCUMENT : Nat := 1
def PROP_URI : Nat := 2
def PROP_ENCODING : Nat := 3
def PROP_NEWLINE_TYPE : Nat := 4

/-- `g_value_get_object`: the object held, NULL for a value of another type. -/
def g_value_get_object : GValue → Option PlumaDocument
  | .object o => o
  | _ => none

/-- `g_value_dup_string`: a copy of the string held, NULL for a value of
another type. -/
def g_value_dup_string : GValue → Option String
  | .string s => s
  | _ => none

/-- `g_value_get_boxed`: the boxed pointer held, NULL for a value of another
type. -/
def g_value_get_boxed : GValue → Option PlumaEncoding
  | .boxed e => e
  | _ => none

/-- `g_value_get_enum`: the enumeration value held, 0 for a value of another
type. -/
def g_value_get_enum : GValue → PlumaDocumentNewlineType
  | .enum t => t
  | _ => .PLUMA_DOCUMENT_NEWLINE_TYPE_LF

/-- `pluma_document_loader_set_property`. -/
def pluma_document_loader_set_property (loader : PlumaDocumentLoader)
    (prop_id : Nat) (value : GValue) : PlumaDocumentLoader × List Event :=
  if prop_id = PROP_DOCUMENT then
    if loader.document = none then
      ({ loader with document := g_value_get_object value }, [])
    else (loader, [Event.critical "loader->document == NULL"])
  else if prop_id = PROP_URI then
    if loader.uri = none then
      ({ loader with uri := g_value_dup_string value }, [])
    else (loader, [Event.critical "loader->uri == NULL"])
  else if prop_id = PROP_ENCODING then
    if loader.encoding = none then
      ({ loader with encoding := g_value_get_boxed value }, [])
    else (loader, [Event.critical "loader->encoding == NULL"])
  else if prop_id = PROP_NEWLINE_TYPE then
    ({ loader with auto_detected_newline_type := g_value_get_enum value }, [])
  else (loader, [Event.warn_invalid_property_id prop_id])

/-- `pluma_document_loader_get_encoding`: the requested encoding when there
is one, else the auto-detected one, else (a failed check) the current
encoding. -/
def pluma_document_loader_get_encoding (env : Env)
    (loader : Option PlumaDocumentLoader) : Option PlumaEncoding × List Event :=
  match loader with
  | none => (none, [Event.critical "PLUMA_IS_DOCUMENT_LOADER (loader)"])
  | some l =>
    if l.encoding ≠ none then (l.encoding, [])
    else if l.auto_detected_encoding ≠ none then (l.auto_detected_encoding, [])
    else (env.pluma_encoding_get_current,
          [Event.critical "loader->auto_detected_encoding != NULL"])

/-- `pluma_document_loader_get_property`: the value stored into `value`,
none for an unknown property id. -/
def pluma_document_loader_get_property (env : Env) (loader : PlumaDocumentLoader)
    (prop_id : Nat) : Option GValue × List Event :=
  if prop_id = PROP_DOCUMENT then (some (GValue.object loader.document), [])
  else if prop_id = PROP_URI then (some (GValue.string loader.uri), [])
  else if prop_id = PROP_ENCODING then
    let r := pluma_document_loader_get_encoding env (some loader)
    (some (GValue.boxed r.1), r.2)
  else if prop_id = PROP_NEWLINE_TYPE then
    (some (GValue.enum loader.auto_detected_newline_type), [])
  else (none, [Event.warn_invalid_property_id prop_id])

/-! ## Life cycle -/

/-- `pluma_document_loader_finalize`: frees the URI and releases the file
info; the released members are cleared in the model. -/
def pluma_document_loader_finalize (loader : PlumaDocumentLoader) : PlumaDocumentLoader :=
  { loader with uri := none, info := none }

/-- `pluma_document_loader_dispose`: releases the file info and sets the
field to NULL. -/
def pluma_document_loader_dispose (loader : PlumaDocumentLoader) : PlumaDocumentLoader :=
  if loader.info ≠ none then { loader with info := none } else loader

/-- `pluma_document_loader_init`. -/
def pluma_document_loader_init (env : Env) (loader : PlumaDocumentLoader) : PlumaDocumentLoader :=
  { loader with
    used := false
    auto_detected_newline_type := env.PLUMA_DOCUMENT_NEWLINE_TYPE_DEFAULT }

/-- `g_object_ref` (GLib): one more reference. -/
def g_object_ref (object : PlumaDocumentLoader) : PlumaDocumentLoader :=
  { object with ref_count := object.ref_count + 1 }

/-- `g_object_unref` (GLib): refused on an object without references; the
last reference disposes and finalizes the object; otherwise one reference
less. -/
def g_object_unref (object : PlumaDocumentLoader) : PlumaDocumentLoader :=
  if object.ref_count = 0 then object
  else if object.ref_count = 1 then
    pluma_document_loader_finalize
      { pluma_document_loader_dispose object with ref_count := 0 }
  else { object with ref_count := object.ref_count - 1 }

/-- A property installed by `pluma_document_loader_class_init`. -/
structure GParamSpec where
  name : String
  prop_id : Nat
  construct_only : Bool
deriving DecidableEq, Repr

/-- `pluma_document_loader_class_init`: the properties installed on the
class, in order. -/
def pluma_document_loader_class_init : List GParamSpec :=
  [ { name := "document", prop_id := PROP_DOCUMENT, construct_only := true },
    { name := "uri", prop_id := PROP_URI, construct_only := true },
    { name := "encoding", prop_id := PROP_ENCODING, construct_only := true },
    { name := "newline-type", prop_id := PROP_NEWLINE_TYPE, construct_only := false } ]

/-- The zero-filled instance of a type that `g_object_new` starts from,
holding one reference; the enumeration value 0 is
`PLUMA_DOCUMENT_NEWLINE_TYPE_LF`. -/
def g_type_create_instance (object_type : GType) : PlumaDocumentLoader :=
  { g_type := object_type
    ref_count := 1
    document := none
    used := false
    info := none
    uri := none
    encoding := none
    auto_detected_encoding := none
    auto_detected_newline_type := .PLUMA_DOCUMENT_NEWLINE_TYPE_LF }

/-- The property part of `g_object_new` (GLib): each named property, in
order, is looked up among the installed ones and set through
`pluma_document_loader_set_property`; a name the class has not installed
ends the construction. -/
def g_object_set_properties (obj : PlumaDocumentLoader) (events : List Event) :
    List (String × GValue) → PlumaDocumentLoader × List Event
  | [] => (obj, events)
  | (name, value) :: rest =>
    match pluma_document_loader_class_init.find? (fun pspec => pspec.name == name) with
    | none => (obj, events ++ [Event.critical "object class has no property of that name"])
    | some pspec =>
      let r := pluma_document_loader_set_property obj pspec.prop_id value
      g_object_set_properties r.1 (events ++ r.2) rest

/-- `g_object_new` (GLib) for a loader type: a zero-filled instance,
initialised by `pluma_document_loader_init` (the initialiser of the
concrete type touches only that type's private data), then the named
properties. A property that is not a construct property and is not named
keeps what the initialiser left. -/
def g_object_new (env : Env) (object_type : GType)
    (properties : List (String × GValue)) : PlumaDocumentLoader × List Event :=
  g_object_set_properties
    (pluma_document_loader_init env (g_type_create_instance object_type)) [] properties

/-! ## Public functions -/

/-- `g_signal_emit` (GLib) for the `loading` signal: the emission holds a
reference of its own on the instance while the handlers run and releases
it when they are done. -/
def g_signal_emit (handlers : Handlers) (loader : PlumaDocumentLoader)
    (completed : Bool) (error : Option GError) : PlumaDocumentLoader × List Event :=
  let delivered := g_object_ref loader
  (g_object_unref (handlers completed error delivered),
   [Event.signal_loading completed error delivered.ref_count])

/-- `pluma_document_loader_loading`: on a terminal notification the loader
is held for the time of the emission. -/
def pluma_document_loader_loading (handlers : Handlers)
    (loader : PlumaDocumentLoader) (completed : Bool) (error : Option GError) :
    PlumaDocumentLoader × List Event :=
  let held := if completed then g_object_ref loader else loader
  let emitted := g_signal_emit handlers held completed error
  if completed then
    (g_object_unref emitted.1,
      emitted.2 ++
        [if error = none then Event.debug_message "load completed"
         else Event.debug_message "load failed"])
  else emitted

/-- `pluma_document_loader_new`: `doc` is `none` when the argument fails
`PLUMA_IS_DOCUMENT`. -/
def pluma_document_loader_new (env : Env) (doc : Option PlumaDocument)
    (uri : Option String) (encoding : Option PlumaEncoding) :
    Option PlumaDocumentLoader × List Event :=
  match doc with
  | none => (none, [Event.critical "PLUMA_IS_DOCUMENT (doc)"])
  | some d =>
    let loader_type := GType.PLUMA_TYPE_GIO_DOCUMENT_LOADER
    let r := g_object_new env loader_type
      [("document", GValue.object (some d)),
       ("uri", GValue.string uri),
       ("encoding", GValue.boxed encoding)]
    (some r.1, r.2)

/-- `pluma_document_loader_load`. -/
def pluma_document_loader_load (klass : PlumaDocumentLoaderClass)
    (loader : Option PlumaDocumentLoader) : Option PlumaDocumentLoader × List Event :=
  match loader with
  | none => (none, [Event.debug, Event.critical "PLUMA_IS_DOCUMENT_LOADER (loader)"])
  | some l =>
    if l.used = false then
      (some (klass.load { l with used := true }), [Event.debug, Event.virtual_load])
    else (some l, [Event.debug, Event.critical "loader->used == FALSE"])

/-- `pluma_document_loader_cancel`. -/
def pluma_document_loader_cancel (klass : PlumaDocumentLoaderClass)
    (loader : Option PlumaDocumentLoader) :
    Bool × Option PlumaDocumentLoader × List Event :=
  match loader with
  | none => (false, none, [Event.debug, Event.critical "PLUMA_IS_DOCUMENT_LOADER (loader)"])
  | some l =>
    let r := klass.cancel l
    (r.1, some r.2, [Event.debug, Event.virtual_cancel])

/-- `pluma_document_loader_get_document`. -/
def pluma_document_loader_get_document (loader : Option PlumaDocumentLoader) :
    Option PlumaDocument × List Event :=
  match loader with
  | none => (none, [Event.critical "PLUMA_IS_DOCUMENT_LOADER (loader)"])
  | some l => (l.document, [])

/-- `pluma_document_loader_get_uri`. -/
def pluma_document_loader_get_uri (loader : Option PlumaDocumentLoader) :
    Option String × List Event :=
  match loader with
  | none => (none, [Event.critical "PLUMA_IS_DOCUMENT_LOADER (loader)"])
  | some l => (l.uri, [])

/-- `pluma_document_loader_get_bytes_read`. -/
def pluma_document_loader_get_bytes_read (klass : PlumaDocumentLoaderClass)
    (loader : Option PlumaDocumentLoader) : Int × List Event :=
  match loader with
  | none => (0, [Event.critical "PLUMA_IS_DOCUMENT_LOADER (loader)"])
  | some l => (klass.get_bytes_read l, [Event.virtual_get_bytes_read])

/-- `pluma_document_loader_get_newline_type`. -/
def pluma_document_loader_get_newline_type (loader : Option PlumaDocumentLoader) :
    PlumaDocumentNewlineType × List Event :=
  match loader with
  | none => (.PLUMA_DOCUMENT_NEWLINE_TYPE_LF,
             [Event.critical "PLUMA_IS_DOCUMENT_LOADER (loader)"])
  | some l => (l.auto_detected_newline_type, [])

/-- `pluma_document_loader_get_info`. -/
def pluma_document_loader_get_info (loader : Option PlumaDocumentLoader) :
    Option GFileInfo × List Event :=
  match loader with
  | none => (none, [Event.critical "PLUMA_IS_DOCUMENT_LOADER (loader)"])
  | some l => (l.info, [])

/-! ## Sequences of calls on one loader -/

/-- A call of a function of the file that can act on a loader. -/
inductive Call where
  | load
  | cancel
  | get_bytes_read
  | loading (completed : Bool) (error : Option GError)
  | set_property (prop_id : Nat) (value : GValue)
deriving DecidableEq, Repr

/-- One call on the loader: the loader afterwards and the events of the
call. -/
def Call.run (klass : PlumaDocumentLoaderClass) (handlers : Handlers)
    (loader : PlumaDocumentLoader) : Call → PlumaDocumentLoader × List Event
  | .load =>
    let r := pluma_document_loader_load klass (some loader)
    (r.1.getD loader, r.2)
  | .cancel =>
    let r := pluma_document_loader_cancel klass (some loader)
    (r.2.1.getD loader, r.2.2)
  | .get_bytes_read =>
    (loader, (pluma_document_loader_get_bytes_read klass (some loader)).2)
  | .loading completed error =>
    pluma_document_loader_loading handlers loader completed error
  | .set_property prop_id value =>
    pluma_document_loader_set_property loader prop_id value

/-- The calls of a list made in order on one loader: the loader afterwards
and all events, in order. -/
def runCalls (klass : PlumaDocumentLoaderClass) (handlers : Handlers) :
    List Call → PlumaDocumentLoader → PlumaDocumentLoader × List Event
  | [], loader => (loader, [])
  | call :: rest, loader =>
    let r := call.run klass handlers loader
    let rs := runCalls klass handlers rest r.1
    (rs.1, r.2 ++ rs.2)

/-- The number of terminal notifications among the events: emissions of
`loading` with `completed == TRUE`. -/
def terminal_notifications : List Event → Nat
  | [] => 0
  | Event.signal_loading true _ _ :: rest => terminal_notifications rest + 1
  | _ :: rest => terminal_notifications rest

/-- The number of dispatches to the variant's `load` among the events. -/
def load_dispatches : List Event → Nat
  | [] => 0
  | Event.virtual_load :: rest => load_dispatches rest + 1
  | _ :: rest => load_dispatches rest

/-- The number of calls of `pluma_document_loader_loading` with
`completed == TRUE` in a list of calls. -/
def terminal_calls : List Call → Nat
  | [] => 0
  | Call.loading true _ :: rest => terminal_calls rest + 1
  | _ :: rest => terminal_calls rest

/-- The notifications among the events, in order: the `completed` flag and
the error of every emission of `loading`. -/
def loading_emissions : List Event → List (Bool × Option GError)
  | [] => []
  | Event.signal_loading completed error _ :: rest =>
    (completed, error) :: loading_emissions rest
  | _ :: rest => loading_emissions rest

/-- The calls of `pluma_document_loader_loading` in a list of calls, in
order: the `completed` flag and the error of each. -/
def loading_calls : List Call → List (Bool × Option GError)
  | [] => []
  | Call.loading completed error :: rest => (completed, error) :: loading_calls rest
  | _ :: rest => loading_calls rest

/-! ## Sample values -/

/-- A platform whose default newline type is LF and whose current encoding
is entry 0 of the encodings table. -/
def sampleEnv : Env :=
  { PLUMA_DOCUMENT_NEWLINE_TYPE_DEFAULT := .PLUMA_DOCUMENT_NEWLINE_TYPE_LF
    pluma_encoding_get_current := some ⟨0⟩ }

/-- The loader `pluma_document_loader_new` returns on `sampleEnv` for the
document at address 1 and the URI `file:///tmp/a.txt`, no encoding being
requested. -/
def sampleLoader : PlumaDocumentLoader :=
  { g_type := .PLUMA_TYPE_GIO_DOCUMENT_LOADER
    ref_count := 1
    document := some ⟨1⟩
    used := false
    info := none
    uri := some "file:///tmp/a.txt"
    encoding := none
    auto_detected_encoding := none
    auto_detected_newline_type := .PLUMA_DOCUMENT_NEWLINE_TYPE_LF }

/-- A variant whose `load` records a file info, whose `cancel` reports
whether a load was started, and that has read 0 bytes. -/
def sampleClass : PlumaDocumentLoaderClass :=
  { load := fun l => { l with info := some ⟨7⟩ }
    cancel := fun l => (l.used, l)
    get_bytes_read := fun _ => 0 }

/-- Handlers that leave the loader as it is. -/
def idleHandlers : Handlers := fun _ _ l => l

/-- Handlers that release one reference on a terminal notification, as the
owner of the loader does when the load is over. -/
def releasingHandlers : Handlers :=
  fun completed _ l => if completed then g_object_unref l else l

/-! ## Construction -/

/-- What `pluma_document_loader_new` returns for a document. -/
theorem new_of_document (env : Env) (doc : PlumaDocument)
    (uri : Option String) (encoding : Option PlumaEncoding) :
    pluma_document_loader_new env (some doc) uri encoding =
        (some { g_type := GType.PLUMA_TYPE_GIO_DOCUMENT_LOADER
                ref_count := 1
                document := some doc
                used := false
                info := none
                uri := uri
                encoding := encoding
                auto_detected_encoding := none
                auto_detected_newline_type := env.PLUMA_DOCUMENT_NEWLINE_TYPE_DEFAULT },
         []) := by
  simp [pluma_document_loader_new, g_object_new, g_object_set_properties,
    pluma_document_loader_class_init, pluma_document_loader_set_property,
    pluma_document_loader_init, g_type_create_instance, g_value_get_object,
    g_value_dup_string, g_value_get_boxed, PROP_DOCUMENT, PROP_URI, PROP_ENCODING,
    PROP_NEWLINE_TYPE, List.find?]

/-- C5: for every valid document, URI and optional encoding,
`pluma_document_loader_new` returns a loader in the ready state: not used,
bound to the given document, with a URI equal to the given one, the given
requested encoding (absent when none was given), the default newline type
and no file info; for an argument that is not a document it returns NULL,
having created nothing. -/
theorem pluma_document_loader_new_ready (env : Env) (doc : PlumaDocument)
    (uri : Option String) (encoding : Option PlumaEncoding) :
    pluma_document_loader_new env (some doc) uri encoding =
        (some { g_type := GType.PLUMA_TYPE_GIO_DOCUMENT_LOADER
                ref_count := 1
                document := some doc
                used := false
                info := none
                uri := uri
                encoding := encoding
                auto_detected_encoding := none
                auto_detected_newline_type := env.PLUMA_DOCUMENT_NEWLINE_TYPE_DEFAULT },
         [])
      ∧ pluma_document_loader_new env none uri encoding =
        (none, [Event.critical "PLUMA_IS_DOCUMENT (doc)"]) :=
  ⟨new_of_document env doc uri encoding, rfl⟩

/-- C6, as stated, fails: no variant is selected from the URI scheme. For
a local path, for a URI with a network scheme and for a standard-input
URI `pluma_document_loader_new` instantiates one and the same type, the GIO
loader, and no two URIs give different types. -/
theorem new_type_ignores_uri_scheme :
    (pluma_document_loader_new sampleEnv (some ⟨1⟩) (some "/tmp/a.txt") none).1.map
        PlumaDocumentLoader.g_type
      = some GType.PLUMA_TYPE_GIO_DOCUMENT_LOADER
    ∧ (pluma_document_loader_new sampleEnv (some ⟨1⟩) (some "sftp://host/a.txt") none).1.map
        PlumaDocumentLoader.g_type
      = some GType.PLUMA_TYPE_GIO_DOCUMENT_LOADER
    ∧ (pluma_document_loader_new sampleEnv (some ⟨1⟩) (some "stdin:///") none).1.map
        PlumaDocumentLoader.g_type
      = some GType.PLUMA_TYPE_GIO_DOCUMENT_LOADER
    ∧ ¬ ∃ uri uri' : Option String,
        (pluma_document_loader_new sampleEnv (some ⟨1⟩) uri none).1.map
            PlumaDocumentLoader.g_type
          ≠ (pluma_document_loader_new sampleEnv (some ⟨1⟩) uri' none).1.map
            PlumaDocumentLoader.g_type := by
  refine ⟨by rw [new_of_document]; rfl, by rw [new_of_document]; rfl,
    by rw [new_of_document]; rfl, ?_⟩
  rintro ⟨uri, uri', h⟩
  rw [new_of_document, new_of_document] at h
  exact h rfl

/-- C6, amended: `pluma_document_loader_new` makes no selection from the
URI. It instantiates the GIO loader type for every URI, document and
encoding, and the URI decides nothing but the `uri` field of the loader:
the loader for one URI is the loader for any other URI with the `uri`
field replaced, the events being the same. -/
theorem pluma_document_loader_new_type (env : Env) (doc : PlumaDocument)
    (uri uri' : Option String) (encoding : Option PlumaEncoding) :
    (pluma_document_loader_new env (some doc) uri encoding).1.map
        PlumaDocumentLoader.g_type
      = some GType.PLUMA_TYPE_GIO_DOCUMENT_LOADER
    ∧ (pluma_document_loader_new env (some doc) uri encoding).1
      = (pluma_document_loader_new env (some doc) uri' encoding).1.map
          (fun l => { l with uri := uri })
    ∧ (pluma_document_loader_new env (some doc) uri encoding).1.bind PlumaDocumentLoader.uri
      = uri
    ∧ (pluma_document_loader_new env (some doc) uri encoding).2
      = (pluma_document_loader_new env (some doc) uri' encoding).2 := by
  rw [new_of_document, new_of_document]
  exact ⟨rfl, rfl, rfl, rfl⟩

/-! ## Properties and getters -/

/-- C7: `pluma_document_loader_get_newline_type` returns
`PLUMA_DOCUMENT_NEWLINE_TYPE_DEFAULT` on a loader as constructed and on any
loader just initialised, keeps its value when another property is set, and
returns `t` after the newline-type property has been set to `t`. -/
theorem get_newline_type_default_until_set (env : Env) (doc : PlumaDocument)
    (uri : Option String) (encoding : Option PlumaEncoding)
    (l : PlumaDocumentLoader) (value : GValue) (t : PlumaDocumentNewlineType) :
    pluma_document_loader_get_newline_type
        (pluma_document_loader_new env (some doc) uri encoding).1
      = (env.PLUMA_DOCUMENT_NEWLINE_TYPE_DEFAULT, [])
    ∧ pluma_document_loader_get_newline_type (some (pluma_document_loader_init env l))
      = (env.PLUMA_DOCUMENT_NEWLINE_TYPE_DEFAULT, [])
    ∧ pluma_document_loader_get_newline_type
        (some (pluma_document_loader_set_property l PROP_DOCUMENT value).1)
      = pluma_document_loader_get_newline_type (some l)
    ∧ pluma_document_loader_get_newline_type
        (some (pluma_document_loader_set_property l PROP_URI value).1)
      = pluma_document_loader_get_newline_type (some l)
    ∧ pluma_document_loader_get_newline_type
        (some (pluma_document_loader_set_property l PROP_ENCODING value).1)
      = pluma_document_loader_get_newline_type (some l)
    ∧ pluma_document_loader_get_newline_type
        (some (pluma_document_loader_set_property l PROP_NEWLINE_TYPE (GValue.enum t)).1)
      = (t, []) := by
  refine ⟨?_, rfl, ?_, ?_, ?_, rfl⟩
  · rw [new_of_document]; rfl
  all_goals
    simp only [pluma_document_loader_set_property, pluma_document_loader_get_newline_type,
      PROP_URI, PROP_DOCUMENT, PROP_ENCODING]
    split_ifs <;> simp_all

/-- C9: a `set_property` on `document`, `uri` or `encoding` when the field
already holds a value is refused and leaves the whole loader unchanged. -/
theorem set_property_set_once (l : PlumaDocumentLoader) (value : GValue)
    (doc : PlumaDocument) (uri : String) (encoding : PlumaEncoding) :
    pluma_document_loader_set_property { l with document := some doc } PROP_DOCUMENT value
      = ({ l with document := some doc }, [Event.critical "loader->document == NULL"])
    ∧ pluma_document_loader_set_property { l with uri := some uri } PROP_URI value
      = ({ l with uri := some uri }, [Event.critical "loader->uri == NULL"])
    ∧ pluma_document_loader_set_property { l with encoding := some encoding } PROP_ENCODING value
      = ({ l with encoding := some encoding }, [Event.critical "loader->encoding == NULL"]) := by
  refine ⟨?_, ?_, ?_⟩ <;>
    simp [pluma_document_loader_set_property, PROP_DOCUMENT, PROP_URI, PROP_ENCODING]

/-- C10, as stated, fails: on the sample loader, after the newline-type
property has been set to CR, setting it to CR LF changes what
`pluma_document_loader_get_newline_type` returns, from CR to CR LF. -/
theorem newline_type_second_set_changes_result :
    (pluma_document_loader_get_newline_type
        (some (pluma_document_loader_set_property sampleLoader PROP_NEWLINE_TYPE
          (GValue.enum .PLUMA_DOCUMENT_NEWLINE_TYPE_CR)).1)).1
      = .PLUMA_DOCUMENT_NEWLINE_TYPE_CR
    ∧ (pluma_document_loader_get_newline_type
        (some (pluma_document_loader_set_property
          (pluma_document_loader_set_property sampleLoader PROP_NEWLINE_TYPE
            (GValue.enum .PLUMA_DOCUMENT_NEWLINE_TYPE_CR)).1
          PROP_NEWLINE_TYPE (GValue.enum .PLUMA_DOCUMENT_NEWLINE_TYPE_CR_LF)).1)).1
      = .PLUMA_DOCUMENT_NEWLINE_TYPE_CR_LF
    ∧ PlumaDocumentNewlineType.PLUMA_DOCUMENT_NEWLINE_TYPE_CR_LF
      ≠ PlumaDocumentNewlineType.PLUMA_DOCUMENT_NEWLINE_TYPE_CR := by
  refine ⟨rfl, rfl, by decide⟩

/-- C10, amended: every set of the newline-type property overwrites the
recorded newline type; after a set to `t1` and a later set to `t2`,
`pluma_document_loader_get_newline_type` returns `t2`, and the loader is
the one a single set to `t2` gives. -/
theorem newline_type_last_set_wins (l : PlumaDocumentLoader)
    (t1 t2 : PlumaDocumentNewlineType) :
    pluma_document_loader_get_newline_type
        (some (pluma_document_loader_set_property
          (pluma_document_loader_set_property l PROP_NEWLINE_TYPE (GValue.enum t1)).1
          PROP_NEWLINE_TYPE (GValue.enum t2)).1)
      = (t2, [])
    ∧ (pluma_document_loader_set_property
          (pluma_document_loader_set_property l PROP_NEWLINE_TYPE (GValue.enum t1)).1
          PROP_NEWLINE_TYPE (GValue.enum t2)).1
      = (pluma_document_loader_set_property l PROP_NEWLINE_TYPE (GValue.enum t2)).1 :=
  ⟨rfl, rfl⟩

/-- C2, as stated, fails: on a loader for which encoding 5 was requested
and nothing is resolved yet, `pluma_document_loader_get_encoding` returns
encoding 5 and not the current encoding (entry 0); and once encoding 9 is
auto-detected it still returns encoding 5. -/
theorem get_encoding_requested_is_not_current :
    ({ sampleLoader with encoding := some ⟨5⟩ }).auto_detected_encoding = none
    ∧ (pluma_document_loader_get_encoding sampleEnv
        (some { sampleLoader with encoding := some ⟨5⟩ })).1
      ≠ sampleEnv.pluma_encoding_get_current
    ∧ (pluma_document_loader_get_encoding sampleEnv
        (some { sampleLoader with encoding := some ⟨5⟩
                                  auto_detected_encoding := some ⟨9⟩ })).1
      ≠ some ⟨9⟩ := by
  refine ⟨rfl, ?_, ?_⟩ <;>
    simp [pluma_document_loader_get_encoding, sampleLoader, sampleEnv]

/-- C2, amended: `pluma_document_loader_get_encoding` returns the requested
encoding when one was requested at construction, whatever has been
resolved; when none was requested it returns the current encoding as long
as `auto_detected_encoding` is unset (reporting a failed check) and the
auto-detected encoding once it is set; on a loader it never returns NULL,
`pluma_encoding_get_current ()` not being NULL. -/
theorem get_encoding_resolution (env : Env) (l : PlumaDocumentLoader)
    (requested detected : PlumaEncoding)
    (hcurrent : env.pluma_encoding_get_current ≠ none) :
    pluma_document_loader_get_encoding env (some { l with encoding := some requested })
      = (some requested, [])
    ∧ pluma_document_loader_get_encoding env
        (some { l with encoding := none, auto_detected_encoding := none })
      = (env.pluma_encoding_get_current,
         [Event.critical "loader->auto_detected_encoding != NULL"])
    ∧ pluma_document_loader_get_encoding env
        (some { l with encoding := none, auto_detected_encoding := some detected })
      = (some detected, [])
    ∧ (pluma_document_loader_get_encoding env (some l)).1 ≠ none := by
  refine ⟨?_, ?_, ?_, ?_⟩
  · simp [pluma_document_loader_get_encoding]
  · simp [pluma_document_loader_get_encoding]
  · simp [pluma_document_loader_get_encoding]
  · simp only [pluma_document_loader_get_encoding]
    split_ifs with h1 h2
    · exact h1
    · exact h2
    · exact hcurrent

/-- The resolution of the encoding on the sample platform and loader, for a
requested encoding 5 and a detected encoding 9. -/
theorem get_encoding_resolution_witness :
    sampleEnv.pluma_encoding_get_current ≠ none
    ∧ (pluma_document_loader_get_encoding sampleEnv
        (some { sampleLoader with encoding := some ⟨5⟩ })
      = (some ⟨5⟩, [])
    ∧ pluma_document_loader_get_encoding sampleEnv
        (some { sampleLoader with encoding := none, auto_detected_encoding := none })
      = (sampleEnv.pluma_encoding_get_current,
         [Event.critical "loader->auto_detected_encoding != NULL"])
    ∧ pluma_document_loader_get_encoding sampleEnv
        (some { sampleLoader with encoding := none, auto_detected_encoding := some ⟨9⟩ })
      = (some ⟨9⟩, [])
    ∧ (pluma_document_loader_get_encoding sampleEnv (some sampleLoader)).1 ≠ none) :=
  ⟨by simp [sampleEnv],
   get_encoding_resolution sampleEnv sampleLoader ⟨5⟩ ⟨9⟩ (by simp [sampleEnv])⟩

/-! ## Counting events -/

theorem load_dispatches_append (xs ys : List Event) :
    load_dispatches (xs ++ ys) = load_dispatches xs + load_dispatches ys := by
  induction xs with
  | nil => simp [load_dispatches]
  | cons x xs ih =>
    cases x <;> simp [load_dispatches, ih]
    omega

theorem terminal_notifications_append (xs ys : List Event) :
    terminal_notifications (xs ++ ys)
      = terminal_notifications xs + terminal_notifications ys := by
  induction xs with
  | nil => simp [terminal_notifications]
  | cons x xs ih =>
    cases x with
    | signal_loading completed error n =>
      cases completed <;> simp [terminal_notifications, ih]
      omega
    | _ => simp [terminal_notifications, ih]

theorem g_object_ref_used (l : PlumaDocumentLoader) : (g_object_ref l).used = l.used := rfl

theorem g_object_unref_used (l : PlumaDocumentLoader) : (g_object_unref l).used = l.used := by
  simp only [g_object_unref, pluma_document_loader_finalize, pluma_document_loader_dispose]
  split_ifs <;> rfl

theorem set_property_used (l : PlumaDocumentLoader) (prop_id : Nat) (value : GValue) :
    (pluma_document_loader_set_property l prop_id value).1.used = l.used := by
  simp only [pluma_document_loader_set_property]
  split_ifs <;> rfl

theorem set_property_load_dispatches (l : PlumaDocumentLoader) (prop_id : Nat) (value : GValue) :
    load_dispatches (pluma_document_loader_set_property l prop_id value).2 = 0 := by
  simp only [pluma_document_loader_set_property]
  split_ifs <;> rfl

/-- The events of one call of `pluma_document_loader_loading`: one
emission, run at the count at entry plus the emission's reference and, on a
terminal notification, the hold; then the debug message of a terminal
notification. -/
theorem loading_events (handlers : Handlers)
    (l : PlumaDocumentLoader) (completed : Bool) (error : Option GError) :
    (pluma_document_loader_loading handlers l completed error).2
      = Event.signal_loading completed error (l.ref_count + if completed then 2 else 1)
        :: (if completed then
              [if error = none then Event.debug_message "load completed"
               else Event.debug_message "load failed"]
            else []) := by
  cases completed <;> simp [pluma_document_loader_loading, g_signal_emit, g_object_ref]

/-- The loader after one call of `pluma_document_loader_loading`. -/
theorem loading_loader (handlers : Handlers)
    (l : PlumaDocumentLoader) (completed : Bool) (error : Option GError) :
    (pluma_document_loader_loading handlers l completed error).1
      = if completed then
          g_object_unref (g_object_unref
            (handlers true error { l with ref_count := l.ref_count + 2 }))
        else g_object_unref (handlers false error { l with ref_count := l.ref_count + 1 }) := by
  cases completed <;> simp [pluma_document_loader_loading, g_signal_emit, g_object_ref]

theorem loading_used (handlers : Handlers)
    (hhandlers : ∀ c e x, (handlers c e x).used = x.used)
    (l : PlumaDocumentLoader) (completed : Bool) (error : Option GError) :
    (pluma_document_loader_loading handlers l completed error).1.used = l.used := by
  rw [loading_loader]
  cases completed <;> simp [g_object_unref_used, hhandlers]

theorem loading_load_dispatches (handlers : Handlers)
    (l : PlumaDocumentLoader) (completed : Bool) (error : Option GError) :
    load_dispatches (pluma_document_loader_loading handlers l completed error).2 = 0 := by
  rw [loading_events]
  cases completed
  · simp [load_dispatches]
  · by_cases h : error = none <;> simp [load_dispatches, h]

/-- A call on a used loader leaves it used and dispatches no load, the
variant and the handlers not writing `used`. -/
theorem Call.run_of_used (klass : PlumaDocumentLoaderClass) (handlers : Handlers)
    (hcancel : ∀ x, (klass.cancel x).2.used = x.used)
    (hhandlers : ∀ c e x, (handlers c e x).used = x.used)
    (call : Call) (l : PlumaDocumentLoader) (hused : l.used = true) :
    (call.run klass handlers l).1.used = true
      ∧ load_dispatches (call.run klass handlers l).2 = 0 := by
  cases call with
  | load => simp [Call.run, pluma_document_loader_load, hused, load_dispatches]
  | cancel => simp [Call.run, pluma_document_loader_cancel, hcancel, hused, load_dispatches]
  | get_bytes_read =>
    simp [Call.run, pluma_document_loader_get_bytes_read, hused, load_dispatches]
  | loading completed error =>
    exact ⟨by simp [Call.run, loading_used handlers hhandlers, hused],
           by simp [Call.run, loading_load_dispatches]⟩
  | set_property prop_id value =>
    exact ⟨by simp [Call.run, set_property_used, hused],
           by simp [Call.run, set_property_load_dispatches]⟩

/-- A call dispatches no load, or dispatches one and leaves the loader
used. -/
theorem Call.run_dispatch (klass : PlumaDocumentLoaderClass) (handlers : Handlers)
    (hload : ∀ x, (klass.load x).used = x.used)
    (call : Call) (l : PlumaDocumentLoader) :
    load_dispatches (call.run klass handlers l).2 = 0
      ∨ (load_dispatches (call.run klass handlers l).2 = 1
          ∧ (call.run klass handlers l).1.used = true) := by
  cases call with
  | load =>
    by_cases hused : l.used = false
    · right; simp [Call.run, pluma_document_loader_load, hused, load_dispatches, hload]
    · left; simp [Call.run, pluma_document_loader_load, hused, load_dispatches]
  | cancel => left; simp [Call.run, pluma_document_loader_cancel, load_dispatches]
  | get_bytes_read =>
    left; simp [Call.run, pluma_document_loader_get_bytes_read, load_dispatches]
  | loading completed error => left; simp [Call.run, loading_load_dispatches]
  | set_property prop_id value => left; simp [Call.run, set_property_load_dispatches]

theorem runCalls_of_used (klass : PlumaDocumentLoaderClass) (handlers : Handlers)
    (hcancel : ∀ x, (klass.cancel x).2.used = x.used)
    (hhandlers : ∀ c e x, (handlers c e x).used = x.used)
    (calls : List Call) (l : PlumaDocumentLoader) (hused : l.used = true) :
    load_dispatches (runCalls klass handlers calls l).2 = 0 := by
  induction calls generalizing l with
  | nil => rfl
  | cons call rest ih =>
    obtain ⟨h1, h2⟩ := Call.run_of_used klass handlers hcancel hhandlers call l hused
    simp [runCalls, load_dispatches_append, h2, ih _ h1]

theorem runCalls_dispatch_le_one (klass : PlumaDocumentLoaderClass) (handlers : Handlers)
    (hload : ∀ x, (klass.load x).used = x.used)
    (hcancel : ∀ x, (klass.cancel x).2.used = x.used)
    (hhandlers : ∀ c e x, (handlers c e x).used = x.used)
    (calls : List Call) (l : PlumaDocumentLoader) :
    load_dispatches (runCalls klass handlers calls l).2 ≤ 1 := by
  induction calls generalizing l with
  | nil => simp [runCalls, load_dispatches]
  | cons call rest ih =>
    simp only [runCalls, load_dispatches_append]
    rcases Call.run_dispatch klass handlers hload call l with h | ⟨h, hused⟩
    · rw [h]; simpa using ih _
    · rw [h, runCalls_of_used klass handlers hcancel hhandlers rest _ hused]

theorem loading_terminal_notifications (handlers : Handlers)
    (l : PlumaDocumentLoader) (completed : Bool) (error : Option GError) :
    terminal_notifications (pluma_document_loader_loading handlers l completed error).2
      = if completed then 1 else 0 := by
  rw [loading_events]
  cases completed
  · simp [terminal_notifications]
  · by_cases h : error = none <;> simp [terminal_notifications, h]

theorem loading_loading_emissions (handlers : Handlers)
    (l : PlumaDocumentLoader) (completed : Bool) (error : Option GError) :
    loading_emissions (pluma_document_loader_loading handlers l completed error).2
      = [(completed, error)] := by
  rw [loading_events]
  cases completed
  · simp [loading_emissions]
  · by_cases h : error = none <;> simp [loading_emissions, h]

theorem loading_emissions_append (xs ys : List Event) :
    loading_emissions (xs ++ ys) = loading_emissions xs ++ loading_emissions ys := by
  induction xs with
  | nil => simp [loading_emissions]
  | cons x xs ih => cases x <;> simp [loading_emissions, ih]

theorem Call.run_loading_emissions (klass : PlumaDocumentLoaderClass)
    (handlers : Handlers) (call : Call) (rest : List Call) (l : PlumaDocumentLoader) :
    loading_emissions (call.run klass handlers l).2 ++ loading_calls rest
      = loading_calls (call :: rest) := by
  cases call with
  | load =>
    simp only [Call.run, pluma_document_loader_load, loading_calls]
    split_ifs <;> simp [loading_emissions]
  | cancel => simp [Call.run, pluma_document_loader_cancel, loading_calls, loading_emissions]
  | get_bytes_read =>
    simp [Call.run, pluma_document_loader_get_bytes_read, loading_calls, loading_emissions]
  | loading completed error =>
    simp [Call.run, loading_loading_emissions, loading_calls]
  | set_property prop_id value =>
    simp only [Call.run, pluma_document_loader_set_property, loading_calls]
    split_ifs <;> simp [loading_emissions]

theorem runCalls_loading_emissions (klass : PlumaDocumentLoaderClass)
    (handlers : Handlers) (calls : List Call) (l : PlumaDocumentLoader) :
    loading_emissions (runCalls klass handlers calls l).2 = loading_calls calls := by
  induction calls generalizing l with
  | nil => rfl
  | cons call rest ih =>
    simp only [runCalls, loading_emissions_append, ih]
    exact Call.run_loading_emissions klass handlers call rest l

theorem Call.run_terminal_notifications (klass : PlumaDocumentLoaderClass)
    (handlers : Handlers) (call : Call) (rest : List Call) (l : PlumaDocumentLoader) :
    terminal_notifications (call.run klass handlers l).2 + terminal_calls rest
      = terminal_calls (call :: rest) := by
  cases call with
  | load =>
    simp only [Call.run, pluma_document_loader_load, terminal_calls]
    split_ifs <;> simp [terminal_notifications]
  | cancel => simp [Call.run, pluma_document_loader_cancel, terminal_calls, terminal_notifications]
  | get_bytes_read =>
    simp [Call.run, pluma_document_loader_get_bytes_read, terminal_calls,
      terminal_notifications]
  | loading completed error =>
    cases completed <;>
      simp [Call.run, loading_terminal_notifications, terminal_calls, Nat.add_comm]
  | set_property prop_id value =>
    simp only [Call.run, pluma_document_loader_set_property, terminal_calls]
    split_ifs <;> simp [terminal_notifications]

theorem runCalls_terminal_notifications (klass : PlumaDocumentLoaderClass)
    (handlers : Handlers) (calls : List Call) (l : PlumaDocumentLoader) :
    terminal_notifications (runCalls klass handlers calls l).2 = terminal_calls calls := by
  induction calls generalizing l with
  | nil => rfl
  | cons call rest ih =>
    simp only [runCalls, terminal_notifications_append, ih]
    exact Call.run_terminal_notifications klass handlers call rest l

/-! ## Starting and cancelling -/

/-- C1: `pluma_document_loader_load` on a fresh loader sets `used` and then
dispatches to the variant's `load` exactly once; on a used loader it is
refused, dispatches nothing and leaves the loader as it is; so in any
sequence of calls on a loader the variant's `load` is dispatched at most
once, and never on a loader that is already used (the variant and the
signal handlers not writing `used`). -/
theorem load_dispatches_at_most_once (klass : PlumaDocumentLoaderClass)
    (handlers : Handlers) (calls : List Call) (l : PlumaDocumentLoader)
    (hload : ∀ x, (klass.load x).used = x.used)
    (hcancel : ∀ x, (klass.cancel x).2.used = x.used)
    (hhandlers : ∀ c e x, (handlers c e x).used = x.used) :
    pluma_document_loader_load klass (some { l with used := false })
      = (some (klass.load { l with used := true }), [Event.debug, Event.virtual_load])
    ∧ (pluma_document_loader_load klass (some { l with used := false })).1.map
        PlumaDocumentLoader.used = some true
    ∧ pluma_document_loader_load klass (some { l with used := true })
      = (some { l with used := true },
         [Event.debug, Event.critical "loader->used == FALSE"])
    ∧ load_dispatches (runCalls klass handlers calls l).2 ≤ 1
    ∧ load_dispatches (runCalls klass handlers calls { l with used := true }).2 = 0 := by
  refine ⟨by simp [pluma_document_loader_load], by simp [pluma_document_loader_load, hload],
    by simp [pluma_document_loader_load], ?_, ?_⟩
  · exact runCalls_dispatch_le_one klass handlers hload hcancel hhandlers calls l
  · exact runCalls_of_used klass handlers hcancel hhandlers calls _ rfl

/-- The sample loader started, cancelled, started again, notified of the
end of the load and started a third time: one dispatch in all. -/
theorem load_dispatches_at_most_once_witness :
    (∀ x, (sampleClass.load x).used = x.used)
    ∧ (∀ x, (sampleClass.cancel x).2.used = x.used)
    ∧ (∀ c e x, (idleHandlers c e x).used = x.used)
    ∧ (pluma_document_loader_load sampleClass (some { sampleLoader with used := false })
        = (some (sampleClass.load { sampleLoader with used := true }),
           [Event.debug, Event.virtual_load])
      ∧ (pluma_document_loader_load sampleClass
          (some { sampleLoader with used := false })).1.map PlumaDocumentLoader.used
        = some true
      ∧ pluma_document_loader_load sampleClass (some { sampleLoader with used := true })
        = (some { sampleLoader with used := true },
           [Event.debug, Event.critical "loader->used == FALSE"])
      ∧ load_dispatches (runCalls sampleClass idleHandlers
          [Call.load, Call.cancel, Call.load, Call.loading true none, Call.load]
          sampleLoader).2 ≤ 1
      ∧ load_dispatches (runCalls sampleClass idleHandlers
          [Call.load, Call.cancel, Call.load, Call.loading true none, Call.load]
          { sampleLoader with used := true }).2 = 0) :=
  ⟨fun _ => rfl, fun _ => rfl, fun _ _ _ => rfl,
   load_dispatches_at_most_once sampleClass idleHandlers
     [Call.load, Call.cancel, Call.load, Call.loading true none, Call.load] sampleLoader
     (fun _ => rfl) (fun _ => rfl) (fun _ _ _ => rfl)⟩

/-- C8: on a loader `pluma_document_loader_cancel` returns the boolean the
variant's `cancel` returns and leaves the loader as the variant's `cancel`
left it, changing no field itself; `used` is not reset, so that a load
after a cancel on a used loader is refused (the variant's `cancel` not
writing `used`); for an argument that is not a loader it returns FALSE and
dispatches nothing. -/
theorem cancel_returns_variant_result (klass : PlumaDocumentLoaderClass)
    (l : PlumaDocumentLoader)
    (hcancel : ∀ x, (klass.cancel x).2.used = x.used) :
    pluma_document_loader_cancel klass (some l)
      = ((klass.cancel l).1, some (klass.cancel l).2, [Event.debug, Event.virtual_cancel])
    ∧ pluma_document_loader_cancel klass none
      = (false, none, [Event.debug, Event.critical "PLUMA_IS_DOCUMENT_LOADER (loader)"])
    ∧ (pluma_document_loader_cancel klass (some l)).2.1.map PlumaDocumentLoader.used
      = some l.used
    ∧ pluma_document_loader_load klass
        (pluma_document_loader_cancel klass (some { l with used := true })).2.1
      = (some (klass.cancel { l with used := true }).2,
         [Event.debug, Event.critical "loader->used == FALSE"]) := by
  refine ⟨rfl, rfl, by simp [pluma_document_loader_cancel, hcancel], ?_⟩
  simp [pluma_document_loader_cancel, pluma_document_loader_load, hcancel]

/-- The sample loader, started, is cancelled: the variant's answer TRUE is
returned, the loader is unchanged and a later load is refused. -/
theorem cancel_returns_variant_result_witness :
    (∀ x, (sampleClass.cancel x).2.used = x.used)
    ∧ (pluma_document_loader_cancel sampleClass (some { sampleLoader with used := true })
        = ((sampleClass.cancel { sampleLoader with used := true }).1,
           some (sampleClass.cancel { sampleLoader with used := true }).2,
           [Event.debug, Event.virtual_cancel])
      ∧ pluma_document_loader_cancel sampleClass none
        = (false, none, [Event.debug, Event.critical "PLUMA_IS_DOCUMENT_LOADER (loader)"])
      ∧ (pluma_document_loader_cancel sampleClass
          (some { sampleLoader with used := true })).2.1.map PlumaDocumentLoader.used
        = some true
      ∧ pluma_document_loader_load sampleClass
          (pluma_document_loader_cancel sampleClass
            (some { sampleLoader with used := true })).2.1
        = (some (sampleClass.cancel { sampleLoader with used := true }).2,
           [Event.debug, Event.critical "loader->used == FALSE"])) :=
  ⟨fun _ => rfl,
   cancel_returns_variant_result sampleClass { sampleLoader with used := true }
     (fun _ => rfl)⟩

/-! ## Notifications -/

/-- C3, as stated, fails: on the sample loader, which has one reference at
entry, the handlers of a terminal notification are run at a count of 3,
two above the count at entry and not one, the emission holding a reference
of its own next to the hold of `pluma_document_loader_loading`. -/
theorem loading_delivers_two_above_entry :
    sampleLoader.ref_count = 1
    ∧ (pluma_document_loader_loading releasingHandlers sampleLoader true none).2
      = [Event.signal_loading true none 3, Event.debug_message "load completed"]
    ∧ (pluma_document_loader_loading releasingHandlers sampleLoader true none).2
      ≠ [Event.signal_loading true none (sampleLoader.ref_count + 1),
         Event.debug_message "load completed"] := by
  refine ⟨rfl, by decide, by decide⟩

/-- C3, amended: on a terminal notification
`pluma_document_loader_loading` takes one reference before the emission and
releases one after it, on the success and on the error path alike; with the
reference the emission itself holds, the handlers are run once, on the
loader at the count at entry plus 2, and after the call the count is the
count at entry changed by what the handlers took or released (the handlers
leaving in place the two references taken for them). On a progress
notification the function takes and releases nothing: the call is the
emission alone, whose handlers are run at the count at entry plus 1. -/
theorem loading_holds_reference (handlers : Handlers) (l : PlumaDocumentLoader)
    (error : Option GError)
    (hlive : 2 ≤ (handlers true error (g_object_ref (g_object_ref l))).ref_count) :
    pluma_document_loader_loading handlers l true error
      = (g_object_unref (g_object_unref
            (handlers true error { l with ref_count := l.ref_count + 2 })),
         [Event.signal_loading true error (l.ref_count + 2),
          if error = none then Event.debug_message "load completed"
          else Event.debug_message "load failed"])
    ∧ (g_object_ref (g_object_ref l)).ref_count = l.ref_count + 2
    ∧ ((pluma_document_loader_loading handlers l true error).1.ref_count : Int)
      = (l.ref_count : Int)
        + (((handlers true error (g_object_ref (g_object_ref l))).ref_count : Int)
            - ((g_object_ref (g_object_ref l)).ref_count : Int))
    ∧ (pluma_document_loader_loading handlers l true error).1.ref_count + 2
      = (handlers true error (g_object_ref (g_object_ref l))).ref_count
    ∧ pluma_document_loader_loading handlers l false error
      = g_signal_emit handlers l false error
    ∧ pluma_document_loader_loading handlers l false error
      = (g_object_unref (handlers false error { l with ref_count := l.ref_count + 1 }),
         [Event.signal_loading false error (l.ref_count + 1)]) := by
  have hfinal : (pluma_document_loader_loading handlers l true error).1.ref_count + 2
      = (handlers true error (g_object_ref (g_object_ref l))).ref_count := by
    rw [loading_loader]
    have hrr : g_object_ref (g_object_ref l) = { l with ref_count := l.ref_count + 2 } := rfl
    rw [hrr] at hlive ⊢
    generalize handlers true error { l with ref_count := l.ref_count + 2 } = out at hlive ⊢
    have h1 : (g_object_unref out).ref_count = out.ref_count - 1 := by
      simp only [g_object_unref, pluma_document_loader_finalize, pluma_document_loader_dispose]
      split_ifs <;> simp_all
    have h2 : (g_object_unref (g_object_unref out)).ref_count = out.ref_count - 2 := by
      have h0 : (g_object_unref out).ref_count ≠ 0 := by omega
      have h3 : (g_object_unref (g_object_unref out)).ref_count
          = (g_object_unref out).ref_count - 1 := by
        generalize g_object_unref out = mid at h0 ⊢
        simp only [g_object_unref, pluma_document_loader_finalize,
          pluma_document_loader_dispose]
        split_ifs <;> simp_all
      omega
    simp only [if_true]
    omega
  have hcount : (g_object_ref (g_object_ref l)).ref_count = l.ref_count + 2 := rfl
  refine ⟨?_, hcount, ?_, hfinal, ?_, ?_⟩
  · exact Prod.ext (by rw [loading_loader]; rfl) (by rw [loading_events]; rfl)
  · omega
  · simp [pluma_document_loader_loading]
  · exact Prod.ext (by rw [loading_loader]; rfl) (by rw [loading_events]; rfl)

/-- The sample loader, held by its owner alone, is notified of the end of
the load by handlers that release the owner's reference: the handlers are
run at count 3, leave 2, and the loader ends without references. -/
theorem loading_holds_reference_witness :
    2 ≤ (releasingHandlers true none (g_object_ref (g_object_ref sampleLoader))).ref_count
    ∧ (pluma_document_loader_loading releasingHandlers sampleLoader true none
        = (g_object_unref (g_object_unref
              (releasingHandlers true none
                { sampleLoader with ref_count := sampleLoader.ref_count + 2 })),
           [Event.signal_loading true none (sampleLoader.ref_count + 2),
            if (none : Option GError) = none then Event.debug_message "load completed"
            else Event.debug_message "load failed"])
      ∧ (g_object_ref (g_object_ref sampleLoader)).ref_count = sampleLoader.ref_count + 2
      ∧ ((pluma_document_loader_loading releasingHandlers sampleLoader true none).1.ref_count
            : Int)
        = (sampleLoader.ref_count : Int)
          + (((releasingHandlers true none
                (g_object_ref (g_object_ref sampleLoader))).ref_count : Int)
              - ((g_object_ref (g_object_ref sampleLoader)).ref_count : Int))
      ∧ (pluma_document_loader_loading releasingHandlers sampleLoader true none).1.ref_count
          + 2
        = (releasingHandlers true none (g_object_ref (g_object_ref sampleLoader))).ref_count
      ∧ pluma_document_loader_loading releasingHandlers sampleLoader false none
        = g_signal_emit releasingHandlers sampleLoader false none
      ∧ pluma_document_loader_loading releasingHandlers sampleLoader false none
        = (g_object_unref (releasingHandlers false none
              { sampleLoader with ref_count := sampleLoader.ref_count + 1 }),
           [Event.signal_loading false none (sampleLoader.ref_count + 1)])) :=
  ⟨by decide, loading_holds_reference releasingHandlers sampleLoader none (by decide)⟩

/-- C4, as stated, fails: two calls of `pluma_document_loader_loading` with
`completed == TRUE` on the sample loader, which the first call leaves alive
and as it was, emit two terminal notifications. -/
theorem loading_terminal_twice :
    (pluma_document_loader_loading idleHandlers sampleLoader true none).1 = sampleLoader
    ∧ (runCalls sampleClass idleHandlers
          [Call.loading true none, Call.loading true none] sampleLoader).2
      = [Event.signal_loading true none 3, Event.debug_message "load completed",
         Event.signal_loading true none 3, Event.debug_message "load completed"]
    ∧ terminal_notifications
        (runCalls sampleClass idleHandlers
          [Call.loading true none, Call.loading true none] sampleLoader).2 = 2 := by
  refine ⟨by decide, by decide, by decide⟩

/-- C4, amended: every call of `pluma_document_loader_loading` emits the
`loading` signal exactly once, with the `completed` flag and the error it
was given, whatever was emitted before: its events are that one emission,
followed by one debug message when `completed` is set. The notifications of
a sequence of calls are therefore those of its calls of
`pluma_document_loader_loading`, one for one and in order, and the terminal
ones are as many as the calls with `completed == TRUE`. -/
theorem loading_one_notification_per_call (klass : PlumaDocumentLoaderClass)
    (handlers : Handlers) (calls : List Call) (l : PlumaDocumentLoader)
    (completed : Bool) (error : Option GError) :
    (pluma_document_loader_loading handlers l completed error).2
      = Event.signal_loading completed error (l.ref_count + if completed then 2 else 1)
        :: (if completed then
              [if error = none then Event.debug_message "load completed"
               else Event.debug_message "load failed"]
            else [])
    ∧ loading_emissions (pluma_document_loader_loading handlers l completed error).2
      = [(completed, error)]
    ∧ terminal_notifications (pluma_document_loader_loading handlers l completed error).2
      = (if completed then 1 else 0)
    ∧ loading_emissions (runCalls klass handlers calls l).2 = loading_calls calls
    ∧ terminal_notifications (runCalls klass handlers calls l).2 = terminal_calls calls :=
  ⟨loading_events handlers l completed error,
   loading_loading_emissions handlers l completed error,
   loading_terminal_notifications handlers l completed error,
   runCalls_loading_emissions klass handlers calls l,
   runCalls_terminal_notifications klass handlers calls l⟩

end Pluma
